import Mathlib

/-
Verification of the Movie-Recommendation-System ("Movistore") read-through
AI-content cache and presentation-layer fallback rules.

Shallow embedding of:
  * src/services/geminiService.ts — the cache store (browser localStorage,
    modelled as an association list from keys to stored envelope values),
    getCachedData / setCachedData, getAI, and the three cached fetch
    operations fetchTrendingMoviesAI / fetchCategoryContent / searchMoviesAI.
    Each fetch operation is parameterised by the environment it reads at
    runtime: the API key (process.env.API_KEY), the backend's behaviour for
    the single generateContent call the operation may make, the current
    store contents, and the clock (Date.now()).  Thrown JavaScript
    exceptions are modelled with Except, and the try/catch blocks of the
    source are modelled by explicit matches on the Except value.
  * src/components/MovieCard.tsx and src/components/Hero.tsx (the files
    shipped under src/unnamed) — the image-source fallback chain and the
    match-percentage rendering.

Strings are modelled as List Char; JavaScript numbers that hold integers
(timestamps, ids) as Int, and vote_average as a rational.  JSON
serialisation of the cache envelope is modelled by storing the envelope
structurally; a stored value whose JSON.parse would throw is the
RawEntry.malformed constructor.  The body of the generateContent response
is abstracted to the three cases the fetch pipeline distinguishes: a falsy
text (undefined or "", which the source replaces by "[]"), a text parsing
to an array of movie records, and a text on which JSON.parse throws.
-/

/-- TypeScript strings, modelled as lists of characters. -/
abbrev Str := List Char

/-- The Movie record of src/types.ts (genre_ids is never consumed and is
omitted).  vote_average is a JS number, modelled as a rational. -/
structure Movie where
  id : Int
  title : Str
  overview : Str
  poster_path : Option Str
  backdrop_path : Option Str
  release_date : Str
  vote_average : ℚ
  genres : Option (List Str)
  reason : Option Str
  deriving DecidableEq

/-- A value stored in localStorage under a cache key: either a well-formed
JSON envelope carrying the data and timestamp fields written by
setCachedData, or a string on which JSON.parse (or the destructuring of its
result) throws. -/
inductive RawEntry where
  | good (data : List Movie) (timestamp : Int)
  | malformed
  deriving DecidableEq

/-- The browser localStorage, modelled as an association list keyed by the
full (namespaced) key string. -/
abbrev Store := List (Str × RawEntry)

/-- localStorage.getItem. -/
def lookupStore (s : Store) (k : Str) : Option RawEntry :=
  match s with
  | [] => none
  | (k', v) :: rest => if k' = k then some v else lookupStore rest k

/-- localStorage.removeItem. -/
def removeStore (s : Store) (k : Str) : Store :=
  match s with
  | [] => []
  | (k', v) :: rest =>
      if k' = k then removeStore rest k else (k', v) :: removeStore rest k

/-- localStorage.setItem: overwrite the entry for the key, or append it. -/
def setStore (s : Store) (k : Str) (v : RawEntry) : Store :=
  match s with
  | [] => [(k, v)]
  | (k', v') :: rest =>
      if k' = k then (k, v) :: rest else (k', v') :: setStore rest k v

/-- const CACHE_PREFIX = 'movistore_cache_v1_'. -/
def CACHE_PREFIX : Str := "movistore_cache_v1_".data

/-- const CACHE_TTL = 1000 * 60 * 60 (one hour, in milliseconds). -/
def CACHE_TTL : Int := 1000 * 60 * 60

/-- getCachedData (geminiService.ts, lines 9-25), in a browser context
(window defined).  Returns the value the source returns together with the
store as left behind: a missing item and a malformed item both yield null
with the store untouched (the parse failure is swallowed by the catch),
and an expired envelope is removed and yields null. -/
def getCachedData (store : Store) (now : Int) (key : Str) :
    Option (List Movie) × Store :=
  match lookupStore store (CACHE_PREFIX ++ key) with
  | none => (none, store)
  | some RawEntry.malformed => (none, store)
  | some (RawEntry.good data ts) =>
      if now - ts > CACHE_TTL then (none, removeStore store (CACHE_PREFIX ++ key))
      else (some data, store)

/-- setCachedData (geminiService.ts, lines 27-37): store the envelope of
the data and the current timestamp under the namespaced key. -/
def setCachedData (store : Store) (key : Str) (data : List Movie) (now : Int) :
    Store :=
  setStore store (CACHE_PREFIX ++ key) (RawEntry.good data now)

/-- The exceptions the fetch pipeline can raise internally. -/
inductive JsError where
  | apiKeyMissing
  | backendError
  | parseFailure
  deriving DecidableEq

/-- getAI (geminiService.ts, lines 40-47): throws when process.env.API_KEY
is absent, otherwise constructs the client. -/
def getAI (apiKey : Option Str) : Except JsError Unit :=
  match apiKey with
  | none => Except.error JsError.apiKeyMissing
  | some _ => Except.ok ()

/-- The text of a generateContent response, abstracted to the three cases
the pipeline distinguishes: falsy text (undefined or "", replaced by "[]"
in the source), a text that JSON.parse turns into an array of movie
records, and a text on which JSON.parse throws. -/
inductive ResponseText where
  | empty
  | json (movies : List Movie)
  | invalid
  deriving DecidableEq

/-- JSON.parse(response.text || "[]") as used by every fetch operation:
none models the thrown SyntaxError. -/
def parseText : ResponseText → Option (List Movie)
  | ResponseText.empty => some []
  | ResponseText.json ms => some ms
  | ResponseText.invalid => none

/-- The behaviour of the one ai.models.generateContent call a fetch
operation may make: the call either throws or yields a response text. -/
inductive BackendResult where
  | failure
  | success (text : ResponseText)
  deriving DecidableEq

instance (ε α : Type) [DecidableEq ε] [DecidableEq α] :
    DecidableEq (Except ε α) := fun x y =>
  match x, y with
  | Except.ok a, Except.ok b =>
      if h : a = b then Decidable.isTrue (by rw [h])
      else Decidable.isFalse (by intro hxy; cases hxy; exact h rfl)
  | Except.error a, Except.error b =>
      if h : a = b then Decidable.isTrue (by rw [h])
      else Decidable.isFalse (by intro hxy; cases hxy; exact h rfl)
  | Except.ok _, Except.error _ => Decidable.isFalse (by intro hxy; cases hxy)
  | Except.error _, Except.ok _ => Decidable.isFalse (by intro hxy; cases hxy)

/-- What a fetch operation produces: its returned (or thrown) value, the
final store, and whether the AI backend was invoked. -/
structure FetchOutcome where
  result : Except JsError (List Movie)
  store : Store
  backendCalled : Bool
  deriving DecidableEq

/-- The try-block shared by the three fetch operations: construct the
client (throws if the key is missing), call the backend (may throw),
JSON.parse the text (may throw), cache the parsed data.  The Bool records
whether the backend call happened. -/
def fetchBody (apiKey : Option Str) (backend : BackendResult) (store : Store)
    (now : Int) (key : Str) : Except JsError (List Movie × Store) × Bool :=
  match getAI apiKey with
  | Except.error e => (Except.error e, false)
  | Except.ok _ =>
      match backend with
      | BackendResult.failure => (Except.error JsError.backendError, true)
      | BackendResult.success text =>
          match parseText text with
          | none => (Except.error JsError.parseFailure, true)
          | some data => (Except.ok (data, setCachedData store key data now), true)

/-- The shared read-through pipeline of fetchTrendingMoviesAI,
fetchCategoryContent and searchMoviesAI: consult the cache (an array
cached value, even an empty one, is truthy and is returned as a hit), and
on a miss run the try-block, the catch turning any thrown error into an
empty result with the store left as the lookup left it. -/
def fetchWithKey (key : Str) (apiKey : Option Str) (backend : BackendResult)
    (store : Store) (now : Int) : FetchOutcome :=
  match getCachedData store now key with
  | (some cached, store1) => ⟨Except.ok cached, store1, false⟩
  | (none, store1) =>
      match fetchBody apiKey backend store1 now key with
      | (Except.ok (data, store2), called) => ⟨Except.ok data, store2, called⟩
      | (Except.error _, called) => ⟨Except.ok [], store1, called⟩

/-- The cache key of fetchTrendingMoviesAI (geminiService.ts, line 70). -/
def trendingCacheKey : Str := "trending_movies".data

/-- The cache key of fetchCategoryContent (geminiService.ts, line 96). -/
def categoryCacheKey (category : Str) : Str := "category_".data ++ category

/-- JS whitespace as consumed by String.prototype.trim, restricted to the
ASCII whitespace characters (space, tab, line feed, carriage return). -/
def isJsSpace (c : Char) : Bool :=
  decide (c.toNat = 32 ∨ c.toNat = 9 ∨ c.toNat = 10 ∨ c.toNat = 13)

/-- String.prototype.trim: drop whitespace from both ends. -/
def trimChars (s : Str) : Str :=
  ((s.dropWhile isJsSpace).reverse.dropWhile isJsSpace).reverse

/-- query.toLowerCase().trim() (geminiService.ts, line 142); toLowerCase
is modelled characterwise on the basic-latin range by Char.toLower. -/
def normalizeQuery (query : Str) : Str :=
  trimChars (query.map Char.toLower)

/-- The cache key of searchMoviesAI (geminiService.ts, line 142). -/
def searchCacheKey (query : Str) : Str :=
  "search_".data ++ normalizeQuery query

/-- fetchTrendingMoviesAI (geminiService.ts, lines 69-93). -/
def fetchTrendingMoviesAI (apiKey : Option Str) (backend : BackendResult)
    (store : Store) (now : Int) : FetchOutcome :=
  fetchWithKey trendingCacheKey apiKey backend store now

/-- fetchCategoryContent (geminiService.ts, lines 95-137); the prompt
selected by the category switch does not influence the cache or result
structure and is abstracted into the backend behaviour. -/
def fetchCategoryContent (category : Str) (apiKey : Option Str)
    (backend : BackendResult) (store : Store) (now : Int) : FetchOutcome :=
  fetchWithKey (categoryCacheKey category) apiKey backend store now

/-- searchMoviesAI (geminiService.ts, lines 139-165). -/
def searchMoviesAI (query : Str) (apiKey : Option Str)
    (backend : BackendResult) (store : Store) (now : Int) : FetchOutcome :=
  fetchWithKey (searchCacheKey query) apiKey backend store now

/-- List-of-characters startsWith, mirroring String.prototype.startsWith. -/
def startsWith (pre s : Str) : Bool :=
  match pre, s with
  | [], _ => true
  | _ :: _, [] => false
  | c :: pre', d :: s' => c == d && startsWith pre' s'

/-- The TMDB poster base URL used by MovieCard. -/
def tmdbPosterBase : Str := "https://image.tmdb.org/t/p/w500".data

/-- The seeded placeholder image used by MovieCard for a movie id. -/
def placeholderUrl (id : Int) : Str :=
  "https://picsum.photos/seed/".data ++ (toString id).data ++ "/300/450".data

/-- The imgSrc selection effect of MovieCard (part_001, lines 17-26):
a truthy poster_path starting with '/' is completed with the TMDB base,
a truthy poster_path starting with 'http' is used verbatim, anything else
resolves to the placeholder seeded by the movie id. -/
def posterImgSrc (m : Movie) : Str :=
  match m.poster_path with
  | some p =>
      if !p.isEmpty && startsWith "/".data p then tmdbPosterBase ++ p
      else if !p.isEmpty && startsWith "http".data p then p
      else placeholderUrl m.id
  | none => placeholderUrl m.id

/-- handleImageError of MovieCard (part_001, lines 28-31): on a runtime
load failure the image source is replaced by the seeded placeholder. -/
def handleImageError (m : Movie) : Str := placeholderUrl m.id

/-- The TMDB backdrop base URL used by Hero. -/
def tmdbBackdropBase : Str := "https://image.tmdb.org/t/p/original".data

/-- The seeded placeholder used by Hero: the JS expression
movie.id + 'backdrop' concatenates the id and the literal. -/
def heroPlaceholderUrl (id : Int) : Str :=
  "https://picsum.photos/seed/".data ++ (toString id).data ++ "backdrop".data
    ++ "/1920/1080".data

/-- The bgSrc selection effect of Hero (part_001, lines 133-143), the same
fallback chain on backdrop_path. -/
def heroBgSrc (m : Movie) : Str :=
  match m.backdrop_path with
  | some p =>
      if !p.isEmpty && startsWith "/".data p then tmdbBackdropBase ++ p
      else if !p.isEmpty && startsWith "http".data p then p
      else heroPlaceholderUrl m.id
  | none => heroPlaceholderUrl m.id

/-- The onError handler of the Hero background image (part_001, line 159). -/
def heroImageError (m : Movie) : Str := heroPlaceholderUrl m.id

/-- Math.round on a rational: round half toward positive infinity. -/
def mathRound (x : ℚ) : Int := Int.floor (x + 1 / 2)

/-- The match percentage rendered by MovieCard (part_001, line 97):
Math.round(movie.vote_average * 10). -/
def movieCardMatchPercent (m : Movie) : Int := mathRound (m.vote_average * 10)

/-- The match text rendered by Hero (part_001, line 174): the constant
string "98% Match", independent of the movie. -/
def heroMatchText (_ : Movie) : Str := "98% Match".data

/-! ### Sample data for concrete instantiations -/

/-- A concrete movie record used to instantiate witnesses. -/
def sampleMovie : Movie :=
  { id := 7, title := "Arrival".data, overview := "A film".data,
    poster_path := none, backdrop_path := none,
    release_date := "2016-11-11".data, vote_average := 8,
    genres := none, reason := none }

/-- A store holding fresh entries for the three content kinds. -/
def sampleHitStore : Store :=
  [(CACHE_PREFIX ++ trendingCacheKey, RawEntry.good [] 0),
   (CACHE_PREFIX ++ categoryCacheKey "tv".data, RawEntry.good [sampleMovie] 10),
   (CACHE_PREFIX ++ searchCacheKey "q".data, RawEntry.good [] 20)]

/-- A store holding one entry that is expired at time CACHE_TTL + 1. -/
def sampleExpiredStore : Store :=
  [(CACHE_PREFIX ++ "k1".data, RawEntry.good [sampleMovie] 0)]

/-- A store holding one malformed entry under the trending key. -/
def corruptStore : Store :=
  [(CACHE_PREFIX ++ trendingCacheKey, RawEntry.malformed)]

/-- A movie whose image paths are TMDB-relative. -/
def posterSlashMovie : Movie :=
  { sampleMovie with
    poster_path := some "/abc.jpg".data,
    backdrop_path := some "/b.jpg".data }

/-- A movie whose image paths are absolute URLs. -/
def posterHttpMovie : Movie :=
  { sampleMovie with
    poster_path := some "http://example/x.jpg".data,
    backdrop_path := some "http://example/b.jpg".data }

/-- A movie with vote_average 8.7. -/
def movie87 : Movie :=
  { sampleMovie with id := 9, vote_average := 87 / 10 }

/-! ### Character and trimming lemmas for query normalization -/

theorem char_toNat_ofNat_valid (n : Nat) (h : n.isValidChar) :
    (Char.ofNat n).toNat = n := by
  rw [Char.ofNat, dif_pos h]
  rfl

theorem toLower_toLower (c : Char) :
    Char.toLower (Char.toLower c) = Char.toLower c := by
  simp only [Char.toLower]
  by_cases h : c.toNat ≥ 65 ∧ c.toNat ≤ 90
  · rw [if_pos h]
    have hv : (c.toNat + 32).isValidChar := Or.inl (by omega)
    rw [char_toNat_ofNat_valid _ hv, if_neg (by omega)]
  · rw [if_neg h, if_neg h]

theorem isJsSpace_toLower (c : Char) :
    isJsSpace (Char.toLower c) = isJsSpace c := by
  simp only [Char.toLower]
  by_cases h : c.toNat ≥ 65 ∧ c.toNat ≤ 90
  · rw [if_pos h]
    have hv : (c.toNat + 32).isValidChar := Or.inl (by omega)
    simp only [isJsSpace, char_toNat_ofNat_valid _ hv]
    rw [decide_eq_decide]
    omega
  · rw [if_neg h]

theorem trimChars_eq_rdropWhile (s : Str) :
    trimChars s = List.rdropWhile isJsSpace (s.dropWhile isJsSpace) := rfl

theorem rdropWhile_append_of_pos (p : Char → Bool) (x w : Str)
    (hw : ∀ c ∈ w, p c = true) :
    List.rdropWhile p (x ++ w) = List.rdropWhile p x := by
  unfold List.rdropWhile
  rw [List.reverse_append, List.dropWhile_append_of_pos (by simpa using hw)]

theorem trimChars_pad (w1 q w2 : Str)
    (hw1 : ∀ c ∈ w1, isJsSpace c = true) (hw2 : ∀ c ∈ w2, isJsSpace c = true) :
    trimChars (w1 ++ q ++ w2) = trimChars q := by
  rw [trimChars_eq_rdropWhile, trimChars_eq_rdropWhile, List.append_assoc,
    List.dropWhile_append_of_pos hw1, List.dropWhile_append]
  split
  · next h =>
      rw [List.dropWhile_eq_nil_iff.mpr hw2]
      rw [List.isEmpty_iff] at h
      rw [h]
  · exact rdropWhile_append_of_pos _ _ _ hw2

theorem dropWhile_trimChars (s : Str) :
    List.dropWhile isJsSpace (trimChars s) = trimChars s := by
  rw [trimChars_eq_rdropWhile]
  have ha : List.dropWhile isJsSpace (s.dropWhile isJsSpace) =
      s.dropWhile isJsSpace := List.dropWhile_idempotent _ _
  have hpre : List.rdropWhile isJsSpace (s.dropWhile isJsSpace) <+:
      s.dropWhile isJsSpace := List.rdropWhile_prefix _ _
  obtain ⟨t, ht⟩ := hpre
  cases hb : List.rdropWhile isJsSpace (s.dropWhile isJsSpace) with
  | nil => simp
  | cons x xs =>
      rw [hb] at ht
      have hx : isJsSpace x = false := by
        have h0 := List.dropWhile_eq_self_iff.mp ha
        rw [← ht] at h0
        have := h0 (by simp)
        simpa using this
      simp [List.dropWhile_cons, hx]

theorem trimChars_idempotent (s : Str) :
    trimChars (trimChars s) = trimChars s := by
  rw [trimChars_eq_rdropWhile (trimChars s), dropWhile_trimChars,
    trimChars_eq_rdropWhile, List.rdropWhile_idempotent _ _]

theorem dropWhile_map_toLower (s : Str) :
    List.dropWhile isJsSpace (s.map Char.toLower) =
      (List.dropWhile isJsSpace s).map Char.toLower := by
  induction s with
  | nil => simp
  | cons c t ih =>
      simp only [List.map_cons, List.dropWhile_cons, isJsSpace_toLower]
      by_cases h : isJsSpace c = true
      · simp [h, ih]
      · simp only [Bool.not_eq_true] at h
        simp [h]

theorem rdropWhile_map_toLower (s : Str) :
    List.rdropWhile isJsSpace (s.map Char.toLower) =
      (List.rdropWhile isJsSpace s).map Char.toLower := by
  unfold List.rdropWhile
  rw [← List.map_reverse, dropWhile_map_toLower, List.map_reverse]

theorem trimChars_map_toLower (s : Str) :
    trimChars (s.map Char.toLower) = (trimChars s).map Char.toLower := by
  rw [trimChars_eq_rdropWhile, trimChars_eq_rdropWhile, dropWhile_map_toLower,
    rdropWhile_map_toLower]

theorem map_toLower_toLower (s : Str) :
    (s.map Char.toLower).map Char.toLower = s.map Char.toLower := by
  rw [List.map_map]
  exact List.map_congr_left (fun c _ => toLower_toLower c)

/-! ### Helper lemmas about the store and the shared pipeline -/

theorem lookupStore_setStore_self (s : Store) (k : Str) (v : RawEntry) :
    lookupStore (setStore s k v) k = some v := by
  induction s with
  | nil => simp [setStore, lookupStore]
  | cons hd tl ih =>
      obtain ⟨k', v'⟩ := hd
      by_cases h : k' = k
      · simp [setStore, lookupStore, h]
      · simp [setStore, lookupStore, h, ih]

theorem getCachedData_fresh (store : Store) (now : Int) (key : Str)
    (data : List Movie) (ts : Int)
    (hfound : lookupStore store (CACHE_PREFIX ++ key) = some (RawEntry.good data ts))
    (hfresh : now - ts ≤ CACHE_TTL) :
    getCachedData store now key = (some data, store) := by
  simp only [getCachedData, hfound]
  rw [if_neg (by omega)]

theorem getCachedData_expired (store : Store) (now : Int) (key : Str)
    (data : List Movie) (ts : Int)
    (hfound : lookupStore store (CACHE_PREFIX ++ key) = some (RawEntry.good data ts))
    (hexp : now - ts > CACHE_TTL) :
    getCachedData store now key = (none, removeStore store (CACHE_PREFIX ++ key)) := by
  simp only [getCachedData, hfound]
  rw [if_pos hexp]

theorem getCachedData_missing (store : Store) (now : Int) (key : Str)
    (hmiss : lookupStore store (CACHE_PREFIX ++ key) = none) :
    getCachedData store now key = (none, store) := by
  unfold getCachedData
  rw [hmiss]

theorem getCachedData_malformed (store : Store) (now : Int) (key : Str)
    (hmal : lookupStore store (CACHE_PREFIX ++ key) = some RawEntry.malformed) :
    getCachedData store now key = (none, store) := by
  unfold getCachedData
  rw [hmal]

theorem fetchWithKey_hit (key : Str) (apiKey : Option Str)
    (backend : BackendResult) (store : Store) (now : Int)
    (data : List Movie) (ts : Int)
    (hfound : lookupStore store (CACHE_PREFIX ++ key) = some (RawEntry.good data ts))
    (hfresh : now - ts ≤ CACHE_TTL) :
    fetchWithKey key apiKey backend store now = ⟨Except.ok data, store, false⟩ := by
  unfold fetchWithKey
  rw [getCachedData_fresh store now key data ts hfound hfresh]

theorem fetchWithKey_noKey (key : Str) (backend : BackendResult)
    (store store1 : Store) (now : Int)
    (hget : getCachedData store now key = (none, store1)) :
    fetchWithKey key none backend store now = ⟨Except.ok [], store1, false⟩ := by
  unfold fetchWithKey
  rw [hget]
  rfl

theorem fetchWithKey_missFail (key k : Str) (backend : BackendResult)
    (store store1 : Store) (now : Int)
    (hget : getCachedData store now key = (none, store1))
    (hfail : backend = BackendResult.failure ∨
      backend = BackendResult.success ResponseText.invalid) :
    fetchWithKey key (some k) backend store now = ⟨Except.ok [], store1, true⟩ := by
  unfold fetchWithKey
  rw [hget]
  rcases hfail with h | h <;> rw [h] <;> rfl

theorem fetchWithKey_missOk (key k : Str) (text : ResponseText)
    (store store1 : Store) (now : Int) (data : List Movie)
    (hget : getCachedData store now key = (none, store1))
    (hparse : parseText text = some data) :
    fetchWithKey key (some k) (BackendResult.success text) store now =
      ⟨Except.ok data, setCachedData store1 key data now, true⟩ := by
  unfold fetchWithKey
  rw [hget]
  simp only [fetchBody, getAI, hparse]

theorem fetchWithKey_missCalls (key k : Str) (backend : BackendResult)
    (store store1 : Store) (now : Int)
    (hget : getCachedData store now key = (none, store1)) :
    (fetchWithKey key (some k) backend store now).backendCalled = true := by
  unfold fetchWithKey
  rw [hget]
  cases backend with
  | failure => rfl
  | success text => cases htext : parseText text <;> simp [fetchBody, getAI, htext]

/-! ### Claim C1 -/

/-- Claim C1: for every content kind (trending, category, search) and
parameters, if a cache entry exists for the computed key and its age
now - entry.timestamp is at most the TTL of one hour, the fetch operation
returns the cached payload unchanged (and leaves the store unchanged) and
does not invoke the AI backend. -/
theorem cache_hit_within_ttl (apiKey : Option Str) (backend : BackendResult)
    (store : Store) (now : Int) (category query : Str)
    (d1 d2 d3 : List Movie) (t1 t2 t3 : Int) :
    (lookupStore store (CACHE_PREFIX ++ trendingCacheKey) =
        some (RawEntry.good d1 t1) → now - t1 ≤ CACHE_TTL →
      fetchTrendingMoviesAI apiKey backend store now =
        ⟨Except.ok d1, store, false⟩) ∧
    (lookupStore store (CACHE_PREFIX ++ categoryCacheKey category) =
        some (RawEntry.good d2 t2) → now - t2 ≤ CACHE_TTL →
      fetchCategoryContent category apiKey backend store now =
        ⟨Except.ok d2, store, false⟩) ∧
    (lookupStore store (CACHE_PREFIX ++ searchCacheKey query) =
        some (RawEntry.good d3 t3) → now - t3 ≤ CACHE_TTL →
      searchMoviesAI query apiKey backend store now =
        ⟨Except.ok d3, store, false⟩) := by
  refine ⟨fun h1 h2 => ?_, fun h1 h2 => ?_, fun h1 h2 => ?_⟩ <;>
    exact fetchWithKey_hit _ apiKey backend store now _ _ h1 h2

theorem cache_hit_within_ttl_witness :
    fetchTrendingMoviesAI (some "k".data) BackendResult.failure sampleHitStore 100 =
      ⟨Except.ok [], sampleHitStore, false⟩ ∧
    fetchCategoryContent "tv".data (some "k".data) BackendResult.failure
        sampleHitStore 100 = ⟨Except.ok [sampleMovie], sampleHitStore, false⟩ ∧
    searchMoviesAI "q".data (some "k".data) BackendResult.failure
        sampleHitStore 100 = ⟨Except.ok [], sampleHitStore, false⟩ := by
  have T := cache_hit_within_ttl (some "k".data) BackendResult.failure
    sampleHitStore 100 "tv".data "q".data [] [sampleMovie] [] 0 10 20
  exact ⟨T.1 (by decide) (by decide), T.2.1 (by decide) (by decide),
    T.2.2 (by decide) (by decide)⟩

/-! ### Claim C2 -/

/-- Claim C2: for every cached key whose entry age exceeds the one-hour
TTL at the time of a fetch, the stale entry is deleted at read time and
the fetch proceeds as a miss: the backend is invoked (exactly the one
call the pipeline can make) and, on success, the prior cache entry is
overwritten with the new payload and the current timestamp. -/
theorem expired_entry_deleted_and_refetched (k : Str) (backend : BackendResult)
    (text : ResponseText) (store : Store) (now : Int) (key : Str)
    (dOld data : List Movie) (ts : Int)
    (hfound : lookupStore store (CACHE_PREFIX ++ key) =
      some (RawEntry.good dOld ts))
    (hexp : now - ts > CACHE_TTL) :
    getCachedData store now key =
      (none, removeStore store (CACHE_PREFIX ++ key)) ∧
    (fetchWithKey key (some k) backend store now).backendCalled = true ∧
    (backend = BackendResult.success text → parseText text = some data →
      fetchWithKey key (some k) backend store now =
        ⟨Except.ok data,
         setCachedData (removeStore store (CACHE_PREFIX ++ key)) key data now,
         true⟩) := by
  have hget := getCachedData_expired store now key dOld ts hfound hexp
  refine ⟨hget, fetchWithKey_missCalls key k backend store _ now hget,
    fun hb hp => ?_⟩
  subst hb
  exact fetchWithKey_missOk key k text store _ now data hget hp

theorem expired_entry_deleted_and_refetched_witness :
    getCachedData sampleExpiredStore 3600001 "k1".data =
      (none, removeStore sampleExpiredStore (CACHE_PREFIX ++ "k1".data)) ∧
    (fetchWithKey "k1".data (some "k".data)
      (BackendResult.success (ResponseText.json [])) sampleExpiredStore
      3600001).backendCalled = true ∧
    fetchWithKey "k1".data (some "k".data)
        (BackendResult.success (ResponseText.json [])) sampleExpiredStore
        3600001 =
      ⟨Except.ok [],
       setCachedData (removeStore sampleExpiredStore (CACHE_PREFIX ++ "k1".data))
         "k1".data [] 3600001, true⟩ := by
  have T := expired_entry_deleted_and_refetched "k".data
    (BackendResult.success (ResponseText.json [])) (ResponseText.json [])
    sampleExpiredStore 3600001 "k1".data [sampleMovie] [] 0
    (by decide) (by decide)
  exact ⟨T.1, T.2.1, T.2.2 rfl rfl⟩

/-! ### Claim C3 -/

/-- Claim C3: for every fetch operation (trending, category, search), if
the backend call errors or the response fails to parse as the declared
array structure, the operation returns an empty list rather than raising
an exception, the store is left unchanged (the cache for that key stays
unpopulated), and a subsequent call for the same key attempts the backend
again. -/
theorem backend_failure_yields_empty_list (k : Str)
    (backend backend2 : BackendResult) (category query : Str)
    (store : Store) (now now2 : Int)
    (hfail : backend = BackendResult.failure ∨
      backend = BackendResult.success ResponseText.invalid) :
    (lookupStore store (CACHE_PREFIX ++ trendingCacheKey) = none →
      fetchTrendingMoviesAI (some k) backend store now =
        ⟨Except.ok [], store, true⟩ ∧
      (fetchTrendingMoviesAI (some k) backend2 store now2).backendCalled = true) ∧
    (lookupStore store (CACHE_PREFIX ++ categoryCacheKey category) = none →
      fetchCategoryContent category (some k) backend store now =
        ⟨Except.ok [], store, true⟩ ∧
      (fetchCategoryContent category (some k) backend2 store now2).backendCalled
        = true) ∧
    (lookupStore store (CACHE_PREFIX ++ searchCacheKey query) = none →
      searchMoviesAI query (some k) backend store now =
        ⟨Except.ok [], store, true⟩ ∧
      (searchMoviesAI query (some k) backend2 store now2).backendCalled = true) := by
  refine ⟨fun h => ?_, fun h => ?_, fun h => ?_⟩ <;>
    exact ⟨fetchWithKey_missFail _ k backend store store now
        (getCachedData_missing store now _ h) hfail,
      fetchWithKey_missCalls _ k backend2 store store now2
        (getCachedData_missing store now2 _ h)⟩

theorem backend_failure_yields_empty_list_witness :
    (fetchTrendingMoviesAI (some "k".data) BackendResult.failure [] 0 =
        ⟨Except.ok [], [], true⟩ ∧
      (fetchTrendingMoviesAI (some "k".data) BackendResult.failure [] 1).backendCalled
        = true) ∧
    (fetchCategoryContent "tv".data (some "k".data) BackendResult.failure [] 0 =
        ⟨Except.ok [], [], true⟩ ∧
      (fetchCategoryContent "tv".data (some "k".data) BackendResult.failure
        [] 1).backendCalled = true) ∧
    (searchMoviesAI "q".data (some "k".data) BackendResult.failure [] 0 =
        ⟨Except.ok [], [], true⟩ ∧
      (searchMoviesAI "q".data (some "k".data) BackendResult.failure
        [] 1).backendCalled = true) := by
  have T := backend_failure_yields_empty_list "k".data BackendResult.failure
    BackendResult.failure "tv".data "q".data [] 0 1 (Or.inl rfl)
  exact ⟨T.1 (by decide), T.2.1 (by decide), T.2.2 (by decide)⟩

/-! ### Claim C5 (corrected) -/

/-- Claim C5, counterexample to the claim as stated: with the API key
absent (and a cache miss), fetchTrendingMoviesAI does not surface an
exception to the caller — the throw inside getAI is caught by the fetch
operation's catch block and converted into an empty-list result. -/
theorem missing_api_key_not_surfaced_cex :
    fetchTrendingMoviesAI none BackendResult.failure [] 0 =
      ⟨Except.ok [], [], false⟩ ∧
    (fetchTrendingMoviesAI none BackendResult.failure [] 0).result ≠
      Except.error JsError.apiKeyMissing := by decide

/-- Claim C5 as amended: if the backend credential is absent, backend
client construction (getAI) does fail loudly with an exception, but each
fetch operation catches it and returns an empty list — with no backend
invocation and the cache left unchanged — instead of surfacing the
exception to the caller. -/
theorem missing_api_key_caught (backend : BackendResult)
    (category query : Str) (store : Store) (now : Int) :
    getAI none = Except.error JsError.apiKeyMissing ∧
    (lookupStore store (CACHE_PREFIX ++ trendingCacheKey) = none →
      fetchTrendingMoviesAI none backend store now =
        ⟨Except.ok [], store, false⟩) ∧
    (lookupStore store (CACHE_PREFIX ++ categoryCacheKey category) = none →
      fetchCategoryContent category none backend store now =
        ⟨Except.ok [], store, false⟩) ∧
    (lookupStore store (CACHE_PREFIX ++ searchCacheKey query) = none →
      searchMoviesAI query none backend store now =
        ⟨Except.ok [], store, false⟩) := by
  refine ⟨rfl, fun h => ?_, fun h => ?_, fun h => ?_⟩ <;>
    exact fetchWithKey_noKey _ backend store store now
      (getCachedData_missing store now _ h)

theorem missing_api_key_caught_witness :
    getAI none = Except.error JsError.apiKeyMissing ∧
    fetchTrendingMoviesAI none BackendResult.failure [] 5 =
      ⟨Except.ok [], [], false⟩ ∧
    fetchCategoryContent "web".data none BackendResult.failure [] 5 =
      ⟨Except.ok [], [], false⟩ ∧
    searchMoviesAI "hi".data none BackendResult.failure [] 5 =
      ⟨Except.ok [], [], false⟩ := by
  have T := missing_api_key_caught BackendResult.failure "web".data "hi".data [] 5
  exact ⟨T.1, T.2.1 (by decide), T.2.2.1 (by decide), T.2.2.2 (by decide)⟩

/-! ### Claim C6 (corrected) -/

/-- Claim C6, counterexample to the claim as stated: a stored cache value
that fails to parse is treated as a miss but is NOT removed from storage —
after the read the malformed entry is still present (getCachedData's
catch only returns null; only the TTL branch calls removeItem). -/
theorem malformed_entry_not_removed_cex :
    getCachedData corruptStore 0 trendingCacheKey = (none, corruptStore) ∧
    lookupStore corruptStore (CACHE_PREFIX ++ trendingCacheKey) =
      some RawEntry.malformed := by decide

/-- Claim C6 as amended: a stored cache value that fails to parse when
read is treated as absent (the read returns a miss), but — unlike an
entry older than the TTL, which is removed — the malformed stored entry
is left in storage untouched. -/
theorem malformed_entry_is_miss (store : Store) (now : Int) (key : Str)
    (data : List Movie) (ts : Int) :
    (lookupStore store (CACHE_PREFIX ++ key) = some RawEntry.malformed →
      getCachedData store now key = (none, store)) ∧
    (lookupStore store (CACHE_PREFIX ++ key) = some (RawEntry.good data ts) →
      now - ts > CACHE_TTL →
      getCachedData store now key =
        (none, removeStore store (CACHE_PREFIX ++ key))) := by
  exact ⟨fun h => getCachedData_malformed store now key h,
    fun h1 h2 => getCachedData_expired store now key data ts h1 h2⟩

theorem malformed_entry_is_miss_witness :
    getCachedData corruptStore 50 trendingCacheKey = (none, corruptStore) ∧
    getCachedData sampleExpiredStore 3600001 "k1".data =
      (none, removeStore sampleExpiredStore (CACHE_PREFIX ++ "k1".data)) := by
  exact ⟨(malformed_entry_is_miss corruptStore 50 trendingCacheKey [] 0).1
      (by decide),
    (malformed_entry_is_miss sampleExpiredStore 3600001 "k1".data
      [sampleMovie] 0).2 (by decide) (by decide)⟩

/-! ### Claim C7 (corrected) -/

/-- Claim C7, counterexample to the claim as stated: fetchTrendingMoviesAI
does not use the cache key "trending" — its key is "trending_movies". -/
theorem trending_key_cex :
    trendingCacheKey ≠ "trending".data ∧
    CACHE_PREFIX ++ trendingCacheKey ≠ CACHE_PREFIX ++ "trending".data := by
  decide

/-- Claim C7 as amended: fetchTrendingMoviesAI uses the cache key
"trending_movies" (stored under the fixed namespace prefix as
"movistore_cache_v1_trending_movies"), and fetchCategoryContent uses
"category_" ++ category (stored as
"movistore_cache_v1_category_" ++ category). -/
theorem cache_keys_used (category : Str) :
    trendingCacheKey = "trending_movies".data ∧
    CACHE_PREFIX ++ trendingCacheKey =
      "movistore_cache_v1_trending_movies".data ∧
    categoryCacheKey category = "category_".data ++ category ∧
    CACHE_PREFIX ++ categoryCacheKey category =
      "movistore_cache_v1_category_".data ++ category := by
  refine ⟨rfl, by decide, rfl, ?_⟩
  show "movistore_cache_v1_".data ++ ("category_".data ++ category) = _
  rw [← List.append_assoc]
  rfl

/-! ### Claim C10 -/

/-- Claim C10: if the backend call succeeds and its text payload parses to
an empty array (including an absent or empty text, treated as "[]"), the
empty list is stored in the cache under the request's key with the current
timestamp, so every subsequent fetch for that key within the TTL (with any
credential and backend behaviour) returns the empty list without invoking
the backend — unlike the failure path, which leaves the cache unpopulated. -/
theorem empty_array_is_cached (k : Str) (apiKey2 : Option Str)
    (text : ResponseText) (backend2 : BackendResult)
    (store : Store) (now now2 : Int)
    (hmiss : lookupStore store (CACHE_PREFIX ++ trendingCacheKey) = none)
    (hparse : parseText text = some [])
    (hfresh : now2 - now ≤ CACHE_TTL) :
    fetchTrendingMoviesAI (some k) (BackendResult.success text) store now =
      ⟨Except.ok [], setCachedData store trendingCacheKey [] now, true⟩ ∧
    fetchTrendingMoviesAI apiKey2 backend2
        (setCachedData store trendingCacheKey [] now) now2 =
      ⟨Except.ok [], setCachedData store trendingCacheKey [] now, false⟩ := by
  constructor
  · exact fetchWithKey_missOk trendingCacheKey k text store store now []
      (getCachedData_missing store now trendingCacheKey hmiss) hparse
  · exact fetchWithKey_hit trendingCacheKey apiKey2 backend2 _ now2 [] now
      (lookupStore_setStore_self store (CACHE_PREFIX ++ trendingCacheKey)
        (RawEntry.good [] now)) hfresh

theorem empty_array_is_cached_witness :
    fetchTrendingMoviesAI (some "k".data)
        (BackendResult.success ResponseText.empty) [] 0 =
      ⟨Except.ok [], setCachedData [] trendingCacheKey [] 0, true⟩ ∧
    fetchTrendingMoviesAI none BackendResult.failure
        (setCachedData [] trendingCacheKey [] 0) 3600000 =
      ⟨Except.ok [], setCachedData [] trendingCacheKey [] 0, false⟩ := by
  exact empty_array_is_cached "k".data none ResponseText.empty
    BackendResult.failure [] 0 3600000 (by decide) (by decide) (by decide)

/-! ### Claim C4 -/

theorem normalizeQuery_idempotent (q : Str) :
    normalizeQuery (normalizeQuery q) = normalizeQuery q := by
  unfold normalizeQuery
  rw [← trimChars_map_toLower, map_toLower_toLower, trimChars_idempotent]

theorem normalizeQuery_insensitive (q1 q2 w1 w2 : Str)
    (hw1 : ∀ c ∈ w1, isJsSpace c = true) (hw2 : ∀ c ∈ w2, isJsSpace c = true)
    (hcase : q1.map Char.toLower = q2.map Char.toLower) :
    normalizeQuery (w1 ++ q1 ++ w2) = normalizeQuery q2 := by
  unfold normalizeQuery
  rw [List.map_append, List.map_append, trimChars_pad, hcase]
  · intro c hc
    obtain ⟨d, hd, rfl⟩ := List.mem_map.mp hc
    rw [isJsSpace_toLower]
    exact hw1 d hd
  · intro c hc
    obtain ⟨d, hd, rfl⟩ := List.mem_map.mp hc
    rw [isJsSpace_toLower]
    exact hw2 d hd

/-- Claim C4: the search cache key is "search_" ++ normalize(query) with
normalize = lowercase then trim; this normalization is idempotent, and
for every pair of queries equal up to letter case and leading/trailing
whitespace (q1 padded with whitespace w1/w2 versus q2), search maps them
to the same cache key. -/
theorem search_key_normalization (q q1 q2 w1 w2 : Str)
    (hw1 : ∀ c ∈ w1, isJsSpace c = true) (hw2 : ∀ c ∈ w2, isJsSpace c = true)
    (hcase : q1.map Char.toLower = q2.map Char.toLower) :
    searchCacheKey q = "search_".data ++ trimChars (q.map Char.toLower) ∧
    normalizeQuery (normalizeQuery q) = normalizeQuery q ∧
    searchCacheKey (w1 ++ q1 ++ w2) = searchCacheKey q2 := by
  refine ⟨rfl, normalizeQuery_idempotent q, ?_⟩
  unfold searchCacheKey
  rw [normalizeQuery_insensitive q1 q2 w1 w2 hw1 hw2 hcase]

theorem search_key_normalization_witness :
    searchCacheKey "x".data =
      "search_".data ++ trimChars ("x".data.map Char.toLower) ∧
    normalizeQuery (normalizeQuery "x".data) = normalizeQuery "x".data ∧
    searchCacheKey ([] ++ "Sad Movies".data ++ " ".data) =
      searchCacheKey "sad movies".data := by
  exact search_key_normalization "x".data "Sad Movies".data "sad movies".data
    [] " ".data (by decide) (by decide) (by decide)

/-! ### Claim C8 -/

theorem isEmpty_false_of_startsWith (c : Char) (pre s : Str)
    (h : startsWith (c :: pre) s = true) : s.isEmpty = false := by
  cases s with
  | nil => simp [startsWith] at h
  | cons a l => rfl

theorem startsWith_http_not_slash (p : Str)
    (h : startsWith "http".data p = true) : startsWith "/".data p = false := by
  cases p with
  | nil => exact absurd h (by decide)
  | cons a l =>
      have ha : 'h' = a := by
        rw [show startsWith "http".data (a :: l) =
          ('h' == a && startsWith "ttp".data l) from rfl,
          Bool.and_eq_true] at h
        exact eq_of_beq h.1
      subst ha
      rfl

/-- Claim C8: the resolved image reference follows the fallback chain
exactly, in MovieCard (poster_path) and Hero (backdrop_path): a truthy
path starting with "/" resolves to the image-host base URL concatenated
with the path; a path starting with "http" resolves to that URL
unchanged; a null, empty, or other-shaped path resolves to the
deterministic placeholder seeded by the item's id; and a runtime load
failure also resolves to that same placeholder. -/
theorem image_fallback_chain (m : Movie) (p b : Str) :
    (m.poster_path = some p → startsWith "/".data p = true →
      posterImgSrc m = tmdbPosterBase ++ p) ∧
    (m.poster_path = some p → startsWith "http".data p = true →
      posterImgSrc m = p) ∧
    (m.poster_path = none ∨ m.poster_path = some [] ∨
      (m.poster_path = some p ∧ startsWith "/".data p = false ∧
        startsWith "http".data p = false) →
      posterImgSrc m = placeholderUrl m.id) ∧
    handleImageError m = placeholderUrl m.id ∧
    (m.backdrop_path = some b → startsWith "/".data b = true →
      heroBgSrc m = tmdbBackdropBase ++ b) ∧
    (m.backdrop_path = some b → startsWith "http".data b = true →
      heroBgSrc m = b) ∧
    (m.backdrop_path = none ∨ m.backdrop_path = some [] ∨
      (m.backdrop_path = some b ∧ startsWith "/".data b = false ∧
        startsWith "http".data b = false) →
      heroBgSrc m = heroPlaceholderUrl m.id) ∧
    heroImageError m = heroPlaceholderUrl m.id := by
  refine ⟨fun hp hs => ?_, fun hp hs => ?_, fun hcase => ?_, rfl,
    fun hp hs => ?_, fun hp hs => ?_, fun hcase => ?_, rfl⟩
  · have hne := isEmpty_false_of_startsWith '/' [] p hs
    simp [posterImgSrc, hp, hne, hs]
  · have hne := isEmpty_false_of_startsWith 'h' "ttp".data p hs
    have hsl := startsWith_http_not_slash p hs
    simp [posterImgSrc, hp, hne, hs, hsl]
  · rcases hcase with h | h | ⟨hp, h1, h2⟩
    · simp [posterImgSrc, h]
    · simp [posterImgSrc, h]
    · simp [posterImgSrc, hp, h1, h2]
  · have hne := isEmpty_false_of_startsWith '/' [] b hs
    simp [heroBgSrc, hp, hne, hs]
  · have hne := isEmpty_false_of_startsWith 'h' "ttp".data b hs
    have hsl := startsWith_http_not_slash b hs
    simp [heroBgSrc, hp, hne, hs, hsl]
  · rcases hcase with h | h | ⟨hp, h1, h2⟩
    · simp [heroBgSrc, h]
    · simp [heroBgSrc, h]
    · simp [heroBgSrc, hp, h1, h2]

theorem image_fallback_chain_witness :
    posterImgSrc posterSlashMovie = tmdbPosterBase ++ "/abc.jpg".data ∧
    posterImgSrc posterHttpMovie = "http://example/x.jpg".data ∧
    posterImgSrc sampleMovie = placeholderUrl sampleMovie.id ∧
    handleImageError sampleMovie = placeholderUrl sampleMovie.id ∧
    heroBgSrc posterSlashMovie = tmdbBackdropBase ++ "/b.jpg".data ∧
    heroBgSrc posterHttpMovie = "http://example/b.jpg".data ∧
    heroBgSrc sampleMovie = heroPlaceholderUrl sampleMovie.id ∧
    heroImageError sampleMovie = heroPlaceholderUrl sampleMovie.id := by
  refine ⟨?_, ?_, ?_, ?_, ?_, ?_, ?_, ?_⟩
  · exact (image_fallback_chain posterSlashMovie "/abc.jpg".data
      "/b.jpg".data).1 rfl (by decide)
  · exact (image_fallback_chain posterHttpMovie "http://example/x.jpg".data
      "http://example/b.jpg".data).2.1 rfl (by decide)
  · exact (image_fallback_chain sampleMovie [] []).2.2.1 (Or.inl rfl)
  · exact (image_fallback_chain sampleMovie [] []).2.2.2.1
  · exact (image_fallback_chain posterSlashMovie "/abc.jpg".data
      "/b.jpg".data).2.2.2.2.1 rfl (by decide)
  · exact (image_fallback_chain posterHttpMovie "http://example/x.jpg".data
      "http://example/b.jpg".data).2.2.2.2.2.1 rfl (by decide)
  · exact (image_fallback_chain sampleMovie [] []).2.2.2.2.2.2.1 (Or.inl rfl)
  · exact (image_fallback_chain sampleMovie [] []).2.2.2.2.2.2.2

/-! ### Claim C9 (corrected) -/

/-- Claim C9, counterexample to the claim as stated: the rating-to-percent
rule does not hold everywhere a rating is displayed.  For a movie with
vote_average = 8.7 the rule round(rating * 10) gives 87, but the Hero
component renders the hardcoded text "98% Match" for it, not "87% Match". -/
theorem rating_everywhere_cex :
    mathRound (movie87.vote_average * 10) = 87 ∧
    heroMatchText movie87 = "98% Match".data ∧
    heroMatchText movie87 ≠ "87% Match".data := by
  refine ⟨?_, rfl, by decide⟩
  show mathRound ((87 : ℚ) / 10 * 10) = 87
  norm_num [mathRound]

/-- Claim C9 as amended: MovieCard renders the rating as
round(vote_average * 10) percent with round-half-up and no validation
restricting the rating to [0, 10] (out-of-range values pass through the
same formula, e.g. 15 renders as 150); the Hero component, however,
renders the constant text "98% Match" regardless of the movie's rating. -/
theorem rating_rendering (m : Movie) :
    movieCardMatchPercent m = Int.floor (m.vote_average * 10 + 1 / 2) ∧
    heroMatchText m = "98% Match".data ∧
    movieCardMatchPercent { m with vote_average := 87 / 10 } = 87 ∧
    movieCardMatchPercent { m with vote_average := 17 / 20 } = 9 ∧
    movieCardMatchPercent { m with vote_average := 15 } = 150 := by
  refine ⟨rfl, rfl, ?_, ?_, ?_⟩
  · show mathRound ((87 : ℚ) / 10 * 10) = 87
    norm_num [mathRound]
  · show mathRound ((17 : ℚ) / 20 * 10) = 9
    norm_num [mathRound]
  · show mathRound ((15 : ℚ) * 10) = 150
    norm_num [mathRound]
